import Mathlib

/-!
Verification of the SoulMate-Connect matching core: a shallow embedding of
the compatibility scorer (MatchingService), the match action route, the
AIService personality scorer, the discovery pipeline (findMatches) and the
sliding-window rate limiter, together with theorems settling the frozen
claims about them.

JavaScript numbers are modelled by the rationals; a computation that
produces NaN in JavaScript (arithmetic on a missing trait value) is
modelled by an `Option` that is `none` exactly when the JavaScript value
is NaN.  Field lookup on an object that may lack the key is modelled by
`Option` as well.
-/

/-- The six trait keys read by both personality scorers.  The first five
are the required keys of validatePersonalityTraits; emotionalIntelligence
is optional. -/
inductive Trait where
  | openness
  | conscientiousness
  | extraversion
  | agreeableness
  | neuroticism
  | emotionalIntelligence
deriving DecidableEq, Repr

/-- A personality trait map: `none` models an absent key. -/
def TraitProfile : Type := Trait → Option ℚ

/-- Deal-breaker flags, defaulting to false (JavaScript falsy on a
missing key, and `user.dealBreakers || \x7b\x7d` supplies the empty
object). -/
structure DealBreakers where
  smoking : Bool := false
  hasKids : Bool := false
  pets : Bool := false
deriving DecidableEq, Repr

/-- The four numeric lifestyle factors compared by the lifestyle
scorer. -/
inductive LifestyleFactor where
  | exerciseFrequency
  | drinkingHabits
  | socialLevel
  | sleepSchedule
deriving DecidableEq, Repr

/-- The lifestyle object: a smoking flag (read truthily by
checkDealBreakers through the optional chain `lifestyle?.smoking`) and
the numeric factors, absent keys modelled by `none`. -/
structure Lifestyle where
  smoking : Bool := false
  factors : LifestyleFactor → Option ℚ := fun _ => none

/-- The slice of a user document read by the matching core. -/
structure UserProfile where
  id : String
  personalityTraits : TraitProfile
  dealBreakers : DealBreakers := {}
  lifestyle : Lifestyle := {}
  hasKids : Bool := false
  hasPets : Bool := false

/-- The trait weight table of MatchingService.analyzePersonalityTraits,
in object-key insertion order. -/
def traitWeights : List (Trait × ℚ) :=
  [(Trait.openness, 15/100),
   (Trait.conscientiousness, 20/100),
   (Trait.extraversion, 18/100),
   (Trait.agreeableness, 22/100),
   (Trait.neuroticism, 15/100),
   (Trait.emotionalIntelligence, 10/100)]

/-- One summand of analyzePersonalityTraits:
`(1 - Math.abs(t1[trait] - t2[trait]) / 100) * weight`.  Subtraction
involving an absent key is NaN in JavaScript, hence `none`. -/
def traitTerm (t1 t2 : TraitProfile) (tw : Trait × ℚ) : Option ℚ :=
  match t1 tw.1, t2 tw.1 with
  | some a, some b => some ((1 - |a - b| / 100) * tw.2)
  | _, _ => none

/-- The running `score +=` accumulation: a NaN summand poisons the
accumulator. -/
def traitStep (t1 t2 : TraitProfile) (acc : Option ℚ) (tw : Trait × ℚ) : Option ℚ :=
  match acc, traitTerm t1 t2 tw with
  | some s, some v => some (s + v)
  | _, _ => none

/-- MatchingService.analyzePersonalityTraits: weighted closeness over the
six traits, then `Math.max(0, score * 100)`.  There is no default for a
missing trait value, so any missing weighted trait makes the whole score
NaN (`none`); `Math.max(0, NaN)` is NaN. -/
def analyzePersonalityTraits (t1 t2 : TraitProfile) : Option ℚ :=
  (traitWeights.foldl (traitStep t1 t2) (some 0)).map (fun s => max 0 (s * 100))

/-- MatchingService.checkDealBreakers: the cascade of six vetoes, each
returning 0, else 100. -/
def checkDealBreakers (u1 u2 : UserProfile) : ℚ :=
  if u1.dealBreakers.smoking && u2.lifestyle.smoking then 0
  else if u2.dealBreakers.smoking && u1.lifestyle.smoking then 0
  else if u1.dealBreakers.hasKids && u2.hasKids then 0
  else if u2.dealBreakers.hasKids && u1.hasKids then 0
  else if u1.dealBreakers.pets && u2.hasPets then 0
  else if u2.dealBreakers.pets && u1.hasPets then 0
  else 100

/-- The disjunction of the six veto conditions of checkDealBreakers. -/
def dealBreakerTriggered (u1 u2 : UserProfile) : Bool :=
  (u1.dealBreakers.smoking && u2.lifestyle.smoking) ||
  (u2.dealBreakers.smoking && u1.lifestyle.smoking) ||
  (u1.dealBreakers.hasKids && u2.hasKids) ||
  (u2.dealBreakers.hasKids && u1.hasKids) ||
  (u1.dealBreakers.pets && u2.hasPets) ||
  (u2.dealBreakers.pets && u1.hasPets)

/-- The factor list of the lifestyle comparison. -/
def lifestyleFactorList : List LifestyleFactor :=
  [LifestyleFactor.exerciseFrequency, LifestyleFactor.drinkingHabits,
   LifestyleFactor.socialLevel, LifestyleFactor.sleepSchedule]

/-- Modelled from the spec: MatchingService.analyzeLifestyle is called by
calculateCompatibility but is not defined anywhere in the repository
sources; section 4.3 step 3 of the specification defines it as the
average, over the fixed factor list, of `max(0, 100 - 20*|diff|)` for
each factor present on both profiles, defaulting to 75 when no factor is
comparable (this also matches AIService.calculateLifestyleCompatibility). -/
def analyzeLifestyle (u1 u2 : UserProfile) : ℚ :=
  let present := lifestyleFactorList.filterMap (fun f =>
    match u1.lifestyle.factors f, u2.lifestyle.factors f with
    | some a, some b => some (max 0 (100 - 20 * |a - b|))
    | _, _ => none)
  if present.length = 0 then 75 else present.sum / present.length

/-- MatchingService.calculateCompatibility: the blended score
`personality*0.6 + lifestyle*0.3 + dealBreaker*0.1`.  The AI insight of
the premium path is an external enrichment call that never alters the
numeric score, so only the score is modelled.  A NaN personality score
makes the blend NaN. -/
def calculateCompatibility (u1 u2 : UserProfile) : Option ℚ :=
  match analyzePersonalityTraits u1.personalityTraits u2.personalityTraits with
  | some p =>
      some (p * (6/10) + analyzeLifestyle u1 u2 * (3/10) + checkDealBreakers u1 u2 * (1/10))
  | none => none

/-- utils/validation.js validatePersonalityTraits: each of the five
required traits must be present, truthy (so the value 0 fails the
`!traits[trait]` test) and within [0,100]. -/
def validatePersonalityTraits (t : TraitProfile) : Bool :=
  [Trait.openness, Trait.conscientiousness, Trait.extraversion,
   Trait.agreeableness, Trait.neuroticism].all (fun tr =>
    match t tr with
    | none => false
    | some v => !(v = 0 || v < 0 || v > 100))

/-- JavaScript `value || 50`: an absent key (undefined) and the falsy
value 0 both fall back to 50. -/
def jsOrFifty (v : Option ℚ) : ℚ :=
  match v with
  | none => 50
  | some x => if x = 0 then 50 else x

/-- The trait weight table of AIService.calculatePersonalityCompatibility
(agreeableness 0.25, neuroticism 0.12). -/
def aiTraitWeights : List (Trait × ℚ) :=
  [(Trait.openness, 15/100),
   (Trait.conscientiousness, 20/100),
   (Trait.extraversion, 18/100),
   (Trait.agreeableness, 25/100),
   (Trait.neuroticism, 12/100),
   (Trait.emotionalIntelligence, 10/100)]

/-- AIService.calculatePersonalityCompatibility: per trait,
`diff = Math.abs((t1[trait] || 50) - (t2[trait] || 50))`,
`score = Math.max(0, 100 - diff * 2)`, accumulated as `score * weight`. -/
def calculatePersonalityCompatibility (t1 t2 : TraitProfile) : ℚ :=
  aiTraitWeights.foldl (fun acc tw =>
    acc + max 0 (100 - |jsOrFifty (t1 tw.1) - jsOrFifty (t2 tw.1)| * 2) * tw.2) 0

/-- The matchType band expression of the action route:
`score >= 90 ? perfect : score >= 80 ? excellent : score >= 70 ? good :
potential`. -/
def matchType (score : ℚ) : String :=
  if score ≥ 90 then "perfect"
  else if score ≥ 80 then "excellent"
  else if score ≥ 70 then "good"
  else "potential"

/-- The slice of a Match document read and written by the action route.
Action slots hold `none` until the corresponding side acts. -/
structure MatchRec where
  mid : Nat
  user1 : String
  user2 : String
  user1Action : Option String := none
  user2Action : Option String := none
  status : String := "pending"
deriving DecidableEq, Repr

/-- A fresh Match document for a pair.  Modelled from the spec: the Match
schema file is not in the repository sources; section 4.5 of the
specification fixes the initial state of a new record as pending with
neither side having acted. -/
def newMatch (mid : Nat) (u1 u2 : String) : MatchRec :=
  { mid := mid, user1 := u1, user2 := u2 }

/-- The transition logic of the action route: store the incoming action in
the slot of the acting side (user1Action when `match.user1 === userId`,
else user2Action), then set status to mutual when both stored actions are
the string like, else to rejected when the incoming action is pass, else
leave status unchanged. -/
def applyMatchAction (m : MatchRec) (userId action : String) : MatchRec :=
  let m1 :=
    if m.user1 = userId then { m with user1Action := some action }
    else { m with user2Action := some action }
  if m1.user1Action = some "like" ∧ m1.user2Action = some "like" then
    { m1 with status := "mutual" }
  else if action = "pass" then
    { m1 with status := "rejected" }
  else
    m1

/-- Match.findOne with the two-orientation `$or` filter: the first stored
record matching the pair in either orientation. -/
def findOneMatch (store : List MatchRec) (u t : String) : Option MatchRec :=
  store.find? (fun m => (m.user1 = u && m.user2 = t) || (m.user1 = t && m.user2 = u))

/-- Mongoose save: replace the stored document with the same identifier,
or append the document when it is new. -/
def saveMatch (store : List MatchRec) (m : MatchRec) : List MatchRec :=
  if store.any (fun r => r.mid = m.mid) then
    store.map (fun r => if r.mid = m.mid then m else r)
  else
    store ++ [m]

/-- One pass of the rate limiter middleware: read the window of the key
(`requests.get(key) || []`), keep only timestamps strictly newer than
`now - windowMs`, deny when the kept count has reached maxRequests
(leaving the map untouched), else append `now` and store the pruned
window. -/
def rateLimiterStep (maxRequests : Nat) (windowMs : ℤ)
    (requests : String → List ℤ) (key : String) (now : ℤ) :
    Bool × (String → List ℤ) :=
  let windowStart := now - windowMs
  let validRequests := (requests key).filter (fun t => windowStart < t)
  if maxRequests ≤ validRequests.length then
    (false, requests)
  else
    (true, fun k => if k = key then validRequests ++ [now] else requests k)

/-- A discovery result entry: the candidate document together with the
computed compatibility (numeric, since NaN scores never pass the
`> 70` filter). -/
structure MatchEntry where
  user : UserProfile
  compatibility : ℚ

/-- The filtering loop of findMatches: evaluate each candidate of the
pool and keep those with compatibility above 70 (a NaN comparison is
false in JavaScript, so NaN scores are dropped). -/
def discoveryFiltered (user : UserProfile) (pool : List UserProfile) : List MatchEntry :=
  pool.filterMap (fun p =>
    match calculateCompatibility user p with
    | some c => if 70 < c then some ⟨p, c⟩ else none
    | none => none)

/-- Stable insertion into a descending-by-score list: the inserted entry
goes before the first entry whose score does not exceed it. -/
def insertByScore (x : MatchEntry) : List MatchEntry → List MatchEntry
  | [] => [x]
  | y :: ys =>
      if y.compatibility ≤ x.compatibility then x :: y :: ys
      else y :: insertByScore x ys

/-- The sort step of findMatches,
`matches.sort((a, b) => b.compatibility - a.compatibility)`: a stable
sort by descending compatibility, rendered as stable insertion sort
(stable sorts for a fixed total preorder agree on their output). -/
def sortMatchesDesc : List MatchEntry → List MatchEntry
  | [] => []
  | x :: xs => insertByScore x (sortMatchesDesc xs)

/-- MatchingService.findMatches after the database pre-query: the pool
argument models the result of the `$near` user query; filter by
compatibility above 70, sort descending, `slice(0, limit)`. -/
def findMatches (user : UserProfile) (pool : List UserProfile) (limit : Nat) :
    List MatchEntry :=
  (sortMatchesDesc (discoveryFiltered user pool)).take limit

/-- findMatches called without an explicit limit: the declared default
parameter is 10. -/
def findMatchesDefault (user : UserProfile) (pool : List UserProfile) : List MatchEntry :=
  findMatches user pool 10

/-! ## Claim C5: band assignment boundaries -/

/-- C5: the band assigned from a final compatibility score is perfect iff
the score is at least 90, excellent iff it lies in [80,90), good iff it
lies in [70,80), and potential otherwise; in particular 90 maps to
perfect and 89.999 maps to excellent. -/
theorem c5_band_boundaries (s : ℚ) :
    (matchType s = "perfect" ↔ 90 ≤ s) ∧
    (matchType s = "excellent" ↔ 80 ≤ s ∧ s < 90) ∧
    (matchType s = "good" ↔ 70 ≤ s ∧ s < 80) ∧
    (matchType s = "potential" ↔ s < 70) := by
  unfold matchType
  split_ifs with h1 h2 h3 <;>
    simp only [ge_iff_le, not_le] at * <;>
    refine ⟨⟨fun hh => ?_, fun hh => ?_⟩, ⟨fun hh => ?_, fun hh => ?_⟩,
      ⟨fun hh => ?_, fun hh => ?_⟩, ⟨fun hh => ?_, fun hh => ?_⟩⟩ <;>
    first
      | rfl
      | linarith
      | (constructor <;> linarith)
      | (exact absurd hh (by decide))

/-! ## Claim C10: default discovery limit -/

/-- C10: findMatches called without an explicit limit uses the declared
default of 10, so the returned sequence never holds more than 10
candidates. -/
theorem c10_default_limit (user : UserProfile) (pool : List UserProfile) :
    (findMatchesDefault user pool).length ≤ 10 := by
  unfold findMatchesDefault findMatches
  rw [List.length_take]
  exact min_le_left _ _

/-! ## Claim C2: super_like and the mutual transition -/

/-- A pending record in which user1 has already liked. -/
def c2Rec : MatchRec :=
  { mid := 21, user1 := "A", user2 := "B", user1Action := some "like" }

/-- C2 counterexample: with user1 having liked, an incoming super_like
from user2 leaves the stored actions at like and super_like, yet the
state does not become mutual (the route compares both actions against
the exact string like). -/
theorem c2_counterexample :
    (applyMatchAction c2Rec "B" "super_like").user1Action = some "like" ∧
    (applyMatchAction c2Rec "B" "super_like").user2Action = some "super_like" ∧
    (applyMatchAction c2Rec "B" "super_like").status ≠ "mutual" := by
  decide

/-- C2 amended: the state becomes mutual whenever, after storing the
incoming action, both stored actions are exactly the string like;
super_like never participates in the mutual check. -/
theorem c2_amended (m : MatchRec) (userId action : String)
    (h1 : (applyMatchAction m userId action).user1Action = some "like")
    (h2 : (applyMatchAction m userId action).user2Action = some "like") :
    (applyMatchAction m userId action).status = "mutual" := by
  by_cases hu : m.user1 = userId <;>
    simp only [applyMatchAction, hu, if_true, if_false] at h1 h2 ⊢ <;>
    split_ifs at h1 h2 ⊢ with hc hp <;>
    simp_all

/-- A pending record in which user1 has already liked, for the C2
witness. -/
def c2wRec : MatchRec :=
  { mid := 22, user1 := "A", user2 := "B", user1Action := some "like" }

/-- C2 witness: a concrete record on which the amended theorem applies. -/
theorem c2_amended_witness :
    (applyMatchAction c2wRec "B" "like").user1Action = some "like" ∧
    (applyMatchAction c2wRec "B" "like").user2Action = some "like" ∧
    (applyMatchAction c2wRec "B" "like").status = "mutual" :=
  ⟨by decide, by decide, c2_amended c2wRec "B" "like" (by decide) (by decide)⟩

/-! ## Claim C3: terminality of the rejected state -/

/-- A rejected record: user1 liked, user2 passed. -/
def c3Rec : MatchRec :=
  { mid := 31, user1 := "A", user2 := "B", user1Action := some "like",
    user2Action := some "pass", status := "rejected" }

/-- C3 counterexample: on a rejected record where user1 had liked, a
subsequent like from the side that passed flips the state to mutual, so
rejected is not terminal. -/
theorem c3_counterexample :
    c3Rec.status = "rejected" ∧
    (applyMatchAction c3Rec "B" "like").status = "mutual" := by
  decide

/-- C3 amended: applying any action to a rejected record never yields
pending (the state stays rejected or becomes mutual), and it becomes
mutual exactly when both stored actions are the string like after the
update. -/
theorem c3_amended (m : MatchRec) (userId action : String)
    (h : m.status = "rejected") :
    ((applyMatchAction m userId action).status = "rejected" ∨
     (applyMatchAction m userId action).status = "mutual") ∧
    ((applyMatchAction m userId action).status = "mutual" ↔
      (applyMatchAction m userId action).user1Action = some "like" ∧
      (applyMatchAction m userId action).user2Action = some "like") := by
  by_cases hu : m.user1 = userId <;>
    simp only [applyMatchAction, hu, if_true, if_false] <;>
    split_ifs with hc hp <;>
    simp_all

/-- A rejected record in which user1 passed, for the C3 witness. -/
def c3wRec : MatchRec :=
  { mid := 32, user1 := "A", user2 := "B", user1Action := some "pass",
    status := "rejected" }

/-- C3 witness: a concrete rejected record on which the amended theorem
applies. -/
theorem c3_amended_witness :
    c3wRec.status = "rejected" ∧
    (((applyMatchAction c3wRec "B" "pass").status = "rejected" ∨
      (applyMatchAction c3wRec "B" "pass").status = "mutual") ∧
     ((applyMatchAction c3wRec "B" "pass").status = "mutual" ↔
       (applyMatchAction c3wRec "B" "pass").user1Action = some "like" ∧
       (applyMatchAction c3wRec "B" "pass").user2Action = some "like")) :=
  ⟨by decide, c3_amended c3wRec "B" "pass" (by decide)⟩

/-! ## Claim C7: the sliding-window rate limiter -/

/-- A sequence of middleware invocations for one key: returns the list of
admission decisions together with the final map. -/
def rateLimiterRun (mx : Nat) (w : ℤ) (rq : String → List ℤ) (k : String) :
    List ℤ → (List Bool × (String → List ℤ))
  | [] => ([], rq)
  | t :: ts =>
      let r := rateLimiterStep mx w rq k t
      let rest := rateLimiterRun mx w r.2 k ts
      (r.1 :: rest.1, rest.2)

/-- A call is denied, and the map left untouched, when the pruned window
of the key has already reached the maximum. -/
theorem rateLimiterStep_deny (mx : Nat) (w : ℤ) (rq : String → List ℤ)
    (k : String) (now : ℤ)
    (h : mx ≤ ((rq k).filter (fun t => now - w < t)).length) :
    rateLimiterStep mx w rq k now = (false, rq) := by
  simp only [rateLimiterStep]
  rw [if_pos h]

/-- A call is admitted when the pruned window is below the maximum, and
the stored window of the key becomes the pruned window with the current
timestamp appended. -/
theorem rateLimiterStep_allow (mx : Nat) (w : ℤ) (rq : String → List ℤ)
    (k : String) (now : ℤ)
    (h : ((rq k).filter (fun t => now - w < t)).length < mx) :
    (rateLimiterStep mx w rq k now).1 = true ∧
    (rateLimiterStep mx w rq k now).2 k =
      (rq k).filter (fun t => now - w < t) ++ [now] := by
  simp only [rateLimiterStep]
  rw [if_neg (not_le.mpr h)]
  exact ⟨rfl, by simp⟩

/-- C7: with maxRequests 3 and windowMs 1000, four calls for one key
within 1000 milliseconds admit exactly the first three and deny the
fourth, and a later call made after every recorded timestamp has left
the trailing window is admitted again. -/
theorem c7_sliding_window (key : String) (t1 t2 t3 t4 t5 : ℤ)
    (h12 : t1 ≤ t2) (h23 : t2 ≤ t3) (h34 : t3 ≤ t4)
    (hwin : t4 < t1 + 1000) (hgap : t3 + 1000 ≤ t5) :
    (rateLimiterRun 3 1000 (fun _ => ([] : List ℤ)) key [t1, t2, t3, t4, t5]).1 =
      [true, true, true, false, true] := by
  have c1 : ((((fun _ => ([] : List ℤ))) key).filter
      (fun t => t1 - 1000 < t)).length < 3 := by simp
  have a1 := rateLimiterStep_allow 3 1000 (fun _ => ([] : List ℤ)) key t1 c1
  have w1 : (rateLimiterStep 3 1000 (fun _ => ([] : List ℤ)) key t1).2 key = [t1] := by
    rw [a1.2]; simp
  have c2 : (((rateLimiterStep 3 1000 (fun _ => ([] : List ℤ)) key t1).2 key).filter
      (fun t => t2 - 1000 < t)).length < 3 := by
    rw [w1]
    exact lt_of_le_of_lt (List.length_filter_le _ _) (by simp)
  have a2 := rateLimiterStep_allow 3 1000
    (rateLimiterStep 3 1000 (fun _ => ([] : List ℤ)) key t1).2 key t2 c2
  have w2 : (rateLimiterStep 3 1000
      (rateLimiterStep 3 1000 (fun _ => ([] : List ℤ)) key t1).2 key t2).2 key
      = [t1, t2] := by
    rw [a2.2, w1]
    simp [List.filter_cons, show t2 - (1000 : ℤ) < t1 from by linarith]
  have c3 : (((rateLimiterStep 3 1000
      (rateLimiterStep 3 1000 (fun _ => ([] : List ℤ)) key t1).2 key t2).2 key).filter
      (fun t => t3 - 1000 < t)).length < 3 := by
    rw [w2]
    exact lt_of_le_of_lt (List.length_filter_le _ _) (by simp)
  have a3 := rateLimiterStep_allow 3 1000
    (rateLimiterStep 3 1000
      (rateLimiterStep 3 1000 (fun _ => ([] : List ℤ)) key t1).2 key t2).2 key t3 c3
  have w3 : (rateLimiterStep 3 1000
      (rateLimiterStep 3 1000
        (rateLimiterStep 3 1000 (fun _ => ([] : List ℤ)) key t1).2 key t2).2 key t3).2 key
      = [t1, t2, t3] := by
    rw [a3.2, w2]
    simp [List.filter_cons,
      show t3 - (1000 : ℤ) < t1 from by linarith,
      show t3 - (1000 : ℤ) < t2 from by linarith]
  have c4 : 3 ≤ (((rateLimiterStep 3 1000
      (rateLimiterStep 3 1000
        (rateLimiterStep 3 1000 (fun _ => ([] : List ℤ)) key t1).2 key t2).2 key t3).2 key).filter
      (fun t => t4 - 1000 < t)).length := by
    rw [w3]
    simp [List.filter_cons,
      show t4 - (1000 : ℤ) < t1 from by linarith,
      show t4 - (1000 : ℤ) < t2 from by linarith,
      show t4 - (1000 : ℤ) < t3 from by linarith]
  have d4 := rateLimiterStep_deny 3 1000
    (rateLimiterStep 3 1000
      (rateLimiterStep 3 1000
        (rateLimiterStep 3 1000 (fun _ => ([] : List ℤ)) key t1).2 key t2).2 key t3).2 key t4 c4
  have w4 : (rateLimiterStep 3 1000
      (rateLimiterStep 3 1000
        (rateLimiterStep 3 1000
          (rateLimiterStep 3 1000 (fun _ => ([] : List ℤ)) key t1).2 key t2).2 key t3).2 key t4).2 key
      = [t1, t2, t3] := by
    rw [d4]; exact w3
  have c5 : (((rateLimiterStep 3 1000
      (rateLimiterStep 3 1000
        (rateLimiterStep 3 1000
          (rateLimiterStep 3 1000 (fun _ => ([] : List ℤ)) key t1).2 key t2).2 key t3).2 key t4).2 key).filter
      (fun t => t5 - 1000 < t)).length < 3 := by
    rw [w4]
    simp [List.filter_cons,
      show ¬(t5 - (1000 : ℤ) < t1) from by linarith,
      show ¬(t5 - (1000 : ℤ) < t2) from by linarith,
      show ¬(t5 - (1000 : ℤ) < t3) from by linarith]
  have a5 := rateLimiterStep_allow 3 1000
    (rateLimiterStep 3 1000
      (rateLimiterStep 3 1000
        (rateLimiterStep 3 1000
          (rateLimiterStep 3 1000 (fun _ => ([] : List ℤ)) key t1).2 key t2).2 key t3).2 key t4).2
    key t5 c5
  have p4 : (rateLimiterStep 3 1000
      (rateLimiterStep 3 1000
        (rateLimiterStep 3 1000
          (rateLimiterStep 3 1000 (fun _ => ([] : List ℤ)) key t1).2 key t2).2 key t3).2 key t4).1
      = false := by
    rw [d4]
  simp only [rateLimiterRun]
  rw [a1.1, a2.1, a3.1, p4, a5.1]

/-- C7 witness: the concrete timestamps 0, 1, 2, 3 and 1002 realize the
hypotheses of the sliding-window theorem. -/
theorem c7_sliding_window_witness :
    ((0 : ℤ) ≤ 1 ∧ (1 : ℤ) ≤ 2 ∧ (2 : ℤ) ≤ 3 ∧ (3 : ℤ) < 0 + 1000 ∧
      (2 : ℤ) + 1000 ≤ 1002) ∧
    (rateLimiterRun 3 1000 (fun _ => ([] : List ℤ)) "k" [0, 1, 2, 3, 1002]).1 =
      [true, true, true, false, true] :=
  ⟨by decide,
   c7_sliding_window "k" 0 1 2 3 1002 (by decide) (by decide) (by decide)
     (by decide) (by decide)⟩

/-! ## Claim C1: when the compatibility evaluation is numeric -/

/-- A NaN accumulator stays NaN through the remaining trait summands. -/
theorem foldl_traitStep_none (t1 t2 : TraitProfile) (l : List (Trait × ℚ)) :
    l.foldl (traitStep t1 t2) none = none := by
  induction l with
  | nil => rfl
  | cons a l ih =>
      have h : traitStep t1 t2 none a = none := by
        unfold traitStep
        cases traitTerm t1 t2 a <;> rfl
      rw [List.foldl_cons, h, ih]

/-- The accumulated personality sum is numeric exactly when every trait
summand is. -/
theorem foldl_traitStep_isSome (t1 t2 : TraitProfile) (l : List (Trait × ℚ)) (s : ℚ) :
    (l.foldl (traitStep t1 t2) (some s)).isSome = true ↔
      ∀ tw ∈ l, (traitTerm t1 t2 tw).isSome = true := by
  induction l generalizing s with
  | nil => simp
  | cons a l ih =>
      rw [List.foldl_cons]
      cases h : traitTerm t1 t2 a with
      | none =>
          have hstep : traitStep t1 t2 (some s) a = none := by
            unfold traitStep; rw [h]
          rw [hstep, foldl_traitStep_none]
          simp [h]
      | some v =>
          have hstep : traitStep t1 t2 (some s) a = some (s + v) := by
            unfold traitStep; rw [h]
          rw [hstep, ih]
          simp [h]

/-- A trait summand is numeric exactly when the trait is present in both
profiles. -/
theorem traitTerm_isSome (t1 t2 : TraitProfile) (tw : Trait × ℚ) :
    (traitTerm t1 t2 tw).isSome = true ↔
      (t1 tw.1).isSome = true ∧ (t2 tw.1).isSome = true := by
  unfold traitTerm
  cases t1 tw.1 <;> cases t2 tw.1 <;> simp

/-- Mapping a function over an optional value keeps its presence. -/
theorem isSome_of_map (f : ℚ → ℚ) (o : Option ℚ) : (o.map f).isSome = o.isSome := by
  cases o <;> rfl

/-- C1 amended: calculateCompatibility never throws on trait maps, and it
returns a numeric score exactly when every one of the six weighted traits
(the five required ones and the optional emotionalIntelligence) is
present in both profiles; a profile that is structurally valid but lacks
emotionalIntelligence therefore yields NaN rather than a numeric
result. -/
theorem c1_amended (u1 u2 : UserProfile) :
    (calculateCompatibility u1 u2).isSome = true ↔
      ∀ t : Trait, (u1.personalityTraits t).isSome = true ∧
        (u2.personalityTraits t).isSome = true := by
  have hcc : (calculateCompatibility u1 u2).isSome
      = (analyzePersonalityTraits u1.personalityTraits u2.personalityTraits).isSome := by
    unfold calculateCompatibility
    cases analyzePersonalityTraits u1.personalityTraits u2.personalityTraits <;> rfl
  rw [hcc]
  unfold analyzePersonalityTraits
  rw [isSome_of_map]
  rw [foldl_traitStep_isSome]
  constructor
  · intro h t
    cases t with
    | openness =>
        exact (traitTerm_isSome _ _ _).mp (h (Trait.openness, 15/100) (by simp [traitWeights]))
    | conscientiousness =>
        exact (traitTerm_isSome _ _ _).mp
          (h (Trait.conscientiousness, 20/100) (by simp [traitWeights]))
    | extraversion =>
        exact (traitTerm_isSome _ _ _).mp
          (h (Trait.extraversion, 18/100) (by simp [traitWeights]))
    | agreeableness =>
        exact (traitTerm_isSome _ _ _).mp
          (h (Trait.agreeableness, 22/100) (by simp [traitWeights]))
    | neuroticism =>
        exact (traitTerm_isSome _ _ _).mp
          (h (Trait.neuroticism, 15/100) (by simp [traitWeights]))
    | emotionalIntelligence =>
        exact (traitTerm_isSome _ _ _).mp
          (h (Trait.emotionalIntelligence, 10/100) (by simp [traitWeights]))
  · intro h tw _
    exact (traitTerm_isSome _ _ _).mpr ⟨(h tw.1).1, (h tw.1).2⟩

/-- A trait map holding exactly the five required traits (all 50) and no
emotionalIntelligence: structurally valid for the validator. -/
def fiveTraitProfile : TraitProfile := fun t =>
  match t with
  | Trait.emotionalIntelligence => none
  | _ => some 50

/-- A user carrying the five-trait profile. -/
def fiveTraitUser : UserProfile := { id := "u", personalityTraits := fiveTraitProfile }

/-- C1 counterexample: a pair of structurally valid profiles (all
required trait keys present) for which calculateCompatibility does not
produce a numeric result: the missing optional emotionalIntelligence
poisons the personality sum, so the evaluation returns NaN. -/
theorem c1_counterexample :
    validatePersonalityTraits fiveTraitProfile = true ∧
    fiveTraitProfile Trait.emotionalIntelligence = none ∧
    calculateCompatibility fiveTraitUser fiveTraitUser = none := by
  refine ⟨?_, rfl, rfl⟩
  simp [validatePersonalityTraits, fiveTraitProfile]
  norm_num

/-! ## Claim C6: the personality scorers on missing traits -/

/-- Each weighted summand of the AIService scorer lies between 0 and 100
times its weight. -/
theorem weightedTermBounds (a b w : ℚ) (hw : 0 ≤ w) :
    0 ≤ max 0 (100 - |a - b| * 2) * w ∧ max 0 (100 - |a - b| * 2) * w ≤ 100 * w := by
  constructor
  · exact mul_nonneg (le_max_left _ _) hw
  · refine mul_le_mul_of_nonneg_right ?_ hw
    refine max_le (by norm_num) ?_
    have := abs_nonneg (a - b)
    linarith

/-- C6 amended: the AIService personality scorer
calculatePersonalityCompatibility reads every missing trait value as 50
through its JavaScript or-default and always returns a numeric score in
[0,100]; the MatchingService scorer analyzePersonalityTraits has no such
default (see the counterexample). -/
theorem c6_amended (t1 t2 : TraitProfile) :
    (0 ≤ calculatePersonalityCompatibility t1 t2 ∧
     calculatePersonalityCompatibility t1 t2 ≤ 100) ∧
    (∀ tr : Trait, t1 tr = none → jsOrFifty (t1 tr) = 50) ∧
    (∀ tr : Trait, t2 tr = none → jsOrFifty (t2 tr) = 50) := by
  refine ⟨?_, fun tr h => by rw [h]; rfl, fun tr h => by rw [h]; rfl⟩
  unfold calculatePersonalityCompatibility aiTraitWeights
  simp only [List.foldl_cons, List.foldl_nil]
  have h1 := weightedTermBounds (jsOrFifty (t1 Trait.openness))
    (jsOrFifty (t2 Trait.openness)) (15/100) (by norm_num)
  have h2 := weightedTermBounds (jsOrFifty (t1 Trait.conscientiousness))
    (jsOrFifty (t2 Trait.conscientiousness)) (20/100) (by norm_num)
  have h3 := weightedTermBounds (jsOrFifty (t1 Trait.extraversion))
    (jsOrFifty (t2 Trait.extraversion)) (18/100) (by norm_num)
  have h4 := weightedTermBounds (jsOrFifty (t1 Trait.agreeableness))
    (jsOrFifty (t2 Trait.agreeableness)) (25/100) (by norm_num)
  have h5 := weightedTermBounds (jsOrFifty (t1 Trait.neuroticism))
    (jsOrFifty (t2 Trait.neuroticism)) (12/100) (by norm_num)
  have h6 := weightedTermBounds (jsOrFifty (t1 Trait.emotionalIntelligence))
    (jsOrFifty (t2 Trait.emotionalIntelligence)) (10/100) (by norm_num)
  constructor <;> [nlinarith [h1, h2, h3, h4, h5, h6]; nlinarith [h1, h2, h3, h4, h5, h6]]

/-- C6 counterexample: on profiles missing the weighted trait
emotionalIntelligence, the MatchingService personality scorer returns
NaN rather than treating the missing value as 50 and producing a numeric
score. -/
theorem c6_counterexample :
    fiveTraitProfile Trait.emotionalIntelligence = none ∧
    analyzePersonalityTraits fiveTraitProfile fiveTraitProfile = none :=
  ⟨rfl, rfl⟩

/-! ## Claim C4: deal-breaker veto and the blended score -/

/-- C4 amended: a triggered veto makes the deal-breaker sub-score 0, and
the veto enters the blend only through its 0.1 weight: the final score
becomes personality times 0.6 plus lifestyle times 0.3, losing exactly
the 10 points of the deal-breaker component rather than flooring out. -/
theorem c4_amended (u1 u2 : UserProfile) (p : ℚ)
    (htrig : dealBreakerTriggered u1 u2 = true)
    (hp : analyzePersonalityTraits u1.personalityTraits u2.personalityTraits = some p) :
    checkDealBreakers u1 u2 = 0 ∧
    calculateCompatibility u1 u2 =
      some (p * (6/10) + analyzeLifestyle u1 u2 * (3/10)) := by
  have h0 : checkDealBreakers u1 u2 = 0 := by
    unfold checkDealBreakers
    unfold dealBreakerTriggered at htrig
    split_ifs <;> first | rfl | (exfalso; simp_all)
  refine ⟨h0, ?_⟩
  simp only [calculateCompatibility, hp, h0, zero_mul, add_zero]

/-- A seeker vetoing smoking, with maximal personality and lifestyle
alignment with the candidate below. -/
def vetoUserA : UserProfile :=
  { id := "a", personalityTraits := fun _ => some 50,
    dealBreakers := { smoking := true },
    lifestyle := { smoking := false, factors := fun _ => some 3 } }

/-- A smoking candidate otherwise identical in traits and lifestyle. -/
def vetoUserB : UserProfile :=
  { id := "b", personalityTraits := fun _ => some 50,
    lifestyle := { smoking := true, factors := fun _ => some 3 } }

/-- The vetoed pair has a maximal personality score. -/
theorem vetoUsers_personality :
    analyzePersonalityTraits vetoUserA.personalityTraits vetoUserB.personalityTraits
      = some 100 := by
  simp [analyzePersonalityTraits, traitWeights, traitStep, traitTerm,
    vetoUserA, vetoUserB]
  norm_num [max_def]

/-- The vetoed pair has a maximal lifestyle score. -/
theorem vetoUsers_lifestyle : analyzeLifestyle vetoUserA vetoUserB = 100 := by
  simp [analyzeLifestyle, lifestyleFactorList, vetoUserA, vetoUserB]
  norm_num [max_def]

/-- C4 counterexample: a pair with a triggered smoking veto and maximal
personality and lifestyle scores still reaches a final compatibility of
90, which even lands in the perfect band: the veto does not floor the
blended score out. -/
theorem c4_counterexample :
    dealBreakerTriggered vetoUserA vetoUserB = true ∧
    checkDealBreakers vetoUserA vetoUserB = 0 ∧
    analyzePersonalityTraits vetoUserA.personalityTraits vetoUserB.personalityTraits
      = some 100 ∧
    analyzeLifestyle vetoUserA vetoUserB = 100 ∧
    calculateCompatibility vetoUserA vetoUserB = some 90 ∧
    matchType 90 = "perfect" := by
  have hc : calculateCompatibility vetoUserA vetoUserB = some 90 := by
    simp only [calculateCompatibility, vetoUsers_personality, vetoUsers_lifestyle]
    norm_num [checkDealBreakers, vetoUserA, vetoUserB]
  exact ⟨rfl, rfl, vetoUsers_personality, vetoUsers_lifestyle, hc,
    by norm_num [matchType]⟩

/-- C4 witness: the vetoed pair realizes the hypotheses of the amended
theorem. -/
theorem c4_amended_witness :
    (dealBreakerTriggered vetoUserA vetoUserB = true ∧
     analyzePersonalityTraits vetoUserA.personalityTraits vetoUserB.personalityTraits
       = some 100) ∧
    (checkDealBreakers vetoUserA vetoUserB = 0 ∧
     calculateCompatibility vetoUserA vetoUserB =
       some (100 * (6/10) + analyzeLifestyle vetoUserA vetoUserB * (3/10))) :=
  ⟨⟨rfl, vetoUsers_personality⟩,
   c4_amended vetoUserA vetoUserB 100 rfl vetoUsers_personality⟩

/-! ## Claim C8: ordering of the discovery result -/

/-- Inserting an entry permutes consing it in front. -/
theorem insertByScore_perm (x : MatchEntry) (l : List MatchEntry) :
    (insertByScore x l).Perm (x :: l) := by
  induction l with
  | nil => exact List.Perm.refl _
  | cons y ys ih =>
      unfold insertByScore
      split_ifs with h
      · exact List.Perm.refl _
      · exact (ih.cons y).trans (List.Perm.swap x y ys)

/-- The sort step permutes its input. -/
theorem sortMatchesDesc_perm (l : List MatchEntry) : (sortMatchesDesc l).Perm l := by
  induction l with
  | nil => exact List.Perm.refl _
  | cons x xs ih =>
      simp only [sortMatchesDesc]
      exact (insertByScore_perm x (sortMatchesDesc xs)).trans (ih.cons x)

/-- Insertion preserves the descending-by-score invariant. -/
theorem insertByScore_sorted (x : MatchEntry) (l : List MatchEntry)
    (h : l.Pairwise (fun a b => b.compatibility ≤ a.compatibility)) :
    (insertByScore x l).Pairwise (fun a b => b.compatibility ≤ a.compatibility) := by
  induction l with
  | nil => simp [insertByScore]
  | cons y ys ih =>
      rw [List.pairwise_cons] at h
      obtain ⟨hy, hys⟩ := h
      unfold insertByScore
      split_ifs with hle
      · refine List.Pairwise.cons ?_ (List.Pairwise.cons hy hys)
        intro z hz
        rcases List.mem_cons.mp hz with rfl | hz2
        · exact hle
        · exact (hy z hz2).trans hle
      · refine List.Pairwise.cons ?_ (ih hys)
        intro z hz
        rcases List.mem_cons.mp ((insertByScore_perm x ys).mem_iff.mp hz) with rfl | hz4
        · exact le_of_lt (not_le.mp hle)
        · exact hy z hz4

/-- The sort step produces a descending-by-score list. -/
theorem sortMatchesDesc_sorted (l : List MatchEntry) :
    (sortMatchesDesc l).Pairwise (fun a b => b.compatibility ≤ a.compatibility) := by
  induction l with
  | nil => simp [sortMatchesDesc]
  | cons x xs ih =>
      simp only [sortMatchesDesc]
      exact insertByScore_sorted x _ ih

/-- Inserting an entry of score c prepends it to the score-c subsequence. -/
theorem filter_insertByScore_eq (x : MatchEntry) (l : List MatchEntry) (c : ℚ)
    (hx : x.compatibility = c) :
    (insertByScore x l).filter (fun e => decide (e.compatibility = c)) =
      x :: l.filter (fun e => decide (e.compatibility = c)) := by
  induction l with
  | nil => simp [insertByScore, hx]
  | cons y ys ih =>
      unfold insertByScore
      split_ifs with hle
      · simp [List.filter_cons, hx]
      · have hyc : ¬ y.compatibility = c := fun hh => hle (le_of_eq (by rw [hh, hx]))
        simp [List.filter_cons, hyc, ih]

/-- Inserting an entry of a different score leaves the score-c
subsequence unchanged. -/
theorem filter_insertByScore_ne (x : MatchEntry) (l : List MatchEntry) (c : ℚ)
    (hx : ¬ x.compatibility = c) :
    (insertByScore x l).filter (fun e => decide (e.compatibility = c)) =
      l.filter (fun e => decide (e.compatibility = c)) := by
  induction l with
  | nil => simp [insertByScore, hx]
  | cons y ys ih =>
      unfold insertByScore
      split_ifs with hle
      · simp [List.filter_cons, hx]
      · by_cases hy : y.compatibility = c <;> simp [List.filter_cons, hy, ih]

/-- Stability of the sort step: entries of any fixed score keep their
input order. -/
theorem sortMatchesDesc_stable (l : List MatchEntry) (c : ℚ) :
    (sortMatchesDesc l).filter (fun e => decide (e.compatibility = c)) =
      l.filter (fun e => decide (e.compatibility = c)) := by
  induction l with
  | nil => rfl
  | cons x xs ih =>
      by_cases hx : x.compatibility = c
      · simp only [sortMatchesDesc]
        rw [filter_insertByScore_eq x _ c hx, ih, List.filter_cons]
        simp [hx]
      · simp only [sortMatchesDesc]
        rw [filter_insertByScore_ne x _ c hx, ih, List.filter_cons]
        simp [hx]

/-- Every retained discovery entry stems from a pool candidate whose
computed score passed the 70 filter. -/
theorem mem_discoveryFiltered (user : UserProfile) (pool : List UserProfile)
    (e : MatchEntry) (he : e ∈ discoveryFiltered user pool) :
    70 < e.compatibility ∧ e.user ∈ pool ∧
      calculateCompatibility user e.user = some e.compatibility := by
  unfold discoveryFiltered at he
  rcases List.mem_filterMap.mp he with ⟨p, hp, hmap⟩
  cases hc : calculateCompatibility user p with
  | none => rw [hc] at hmap; simp at hmap
  | some c0 =>
      rw [hc] at hmap
      by_cases h70 : 70 < c0
      · simp [h70] at hmap
        subst hmap
        exact ⟨h70, hp, hc⟩
      · simp [h70] at hmap

/-- C8 amended: the discovery result is sorted descending by score, is
truncated to the limit, contains only pool candidates whose computed
score exceeds 70, and, whenever the filtered pool fits in the limit, is
exactly a permutation of it with equal-score candidates kept in pool
order (the JavaScript sort is stable; there is no identifier
tie-break). -/
theorem c8_amended (user : UserProfile) (pool : List UserProfile) (limit : Nat) :
    (findMatches user pool limit).Pairwise
      (fun a b => b.compatibility ≤ a.compatibility) ∧
    (findMatches user pool limit).length ≤ limit ∧
    (∀ e ∈ findMatches user pool limit,
      70 < e.compatibility ∧ e.user ∈ pool ∧
        calculateCompatibility user e.user = some e.compatibility) ∧
    ((discoveryFiltered user pool).length ≤ limit →
      (findMatches user pool limit).Perm (discoveryFiltered user pool) ∧
      ∀ c : ℚ,
        (findMatches user pool limit).filter (fun e => decide (e.compatibility = c)) =
          (discoveryFiltered user pool).filter (fun e => decide (e.compatibility = c))) := by
  refine ⟨?_, ?_, ?_, ?_⟩
  · exact (sortMatchesDesc_sorted _).sublist (List.take_sublist _ _)
  · unfold findMatches
    rw [List.length_take]
    exact min_le_left _ _
  · intro e he
    exact mem_discoveryFiltered user pool e
      ((sortMatchesDesc_perm _).mem_iff.mp (List.mem_of_mem_take he))
  · intro hlen
    have htake : findMatches user pool limit
        = sortMatchesDesc (discoveryFiltered user pool) := by
      unfold findMatches
      exact List.take_of_length_le (by rw [(sortMatchesDesc_perm _).length_eq]; exact hlen)
    rw [htake]
    exact ⟨sortMatchesDesc_perm _, fun c => sortMatchesDesc_stable _ c⟩

/-- The discovery seeker fixture. -/
def seekerW : UserProfile := { id := "s", personalityTraits := fun _ => some 50 }

/-- A candidate with identifier a, identical in traits to the seeker. -/
def candA : UserProfile := { id := "a", personalityTraits := fun _ => some 50 }

/-- A candidate with identifier b, identical in traits to the seeker. -/
def candB : UserProfile := { id := "b", personalityTraits := fun _ => some 50 }

/-- Both fixture candidates score 92.5 against the seeker. -/
theorem seekerW_scores :
    calculateCompatibility seekerW candA = some (185/2) ∧
    calculateCompatibility seekerW candB = some (185/2) := by
  constructor <;>
    (simp [calculateCompatibility, analyzePersonalityTraits, traitWeights,
      traitStep, traitTerm, analyzeLifestyle, lifestyleFactorList,
      checkDealBreakers, seekerW, candA, candB]
     norm_num [max_def])

/-- The filtered pool for the tied fixture pair, in pool order. -/
theorem discoveryFiltered_pair :
    discoveryFiltered seekerW [candB, candA] =
      [⟨candB, 185/2⟩, ⟨candA, 185/2⟩] := by
  simp [discoveryFiltered, seekerW_scores.1, seekerW_scores.2,
    show (70:ℚ) < 185/2 from by norm_num]

/-- C8 counterexample: two tied candidates arriving in the order b then a
are returned in that pool order, not sorted by ascending identifier, so
the claimed identifier tie-break does not hold. -/
theorem c8_counterexample :
    (findMatches seekerW [candB, candA] 10).map (fun e => e.user.id) = ["b", "a"] ∧
    ¬ (findMatches seekerW [candB, candA] 10).map (fun e => e.user.id) = ["a", "b"] := by
  have hs : sortMatchesDesc [(⟨candB, 185/2⟩ : MatchEntry), ⟨candA, 185/2⟩] =
      [⟨candB, 185/2⟩, ⟨candA, 185/2⟩] := by
    simp [sortMatchesDesc, insertByScore]
  have hm : findMatches seekerW [candB, candA] 10 =
      [⟨candB, 185/2⟩, ⟨candA, 185/2⟩] := by
    unfold findMatches
    rw [discoveryFiltered_pair, hs]
    rfl
  rw [hm]
  constructor
  · simp [candA, candB]
  · simp [candA, candB]

/-- C8 witness: the tied fixture pool realizes the truncation hypothesis
of the amended theorem. -/
theorem c8_amended_witness :
    (discoveryFiltered seekerW [candB, candA]).length ≤ 10 ∧
    (findMatches seekerW [candB, candA] 10).Perm
      (discoveryFiltered seekerW [candB, candA]) := by
  have hlen : (discoveryFiltered seekerW [candB, candA]).length ≤ 10 := by
    rw [discoveryFiltered_pair]; simp
  exact ⟨hlen, ((c8_amended seekerW [candB, candA] 10).2.2.2 hlen).1⟩

/-! ## Claim C9: concurrent find-or-create for one pair -/

/-- The store produced by the racing schedule find, find, save, save: two
action submissions for the unordered pair of A and B both run
Match.findOne against the empty store before either saves, so each takes
the creation path of the route. -/
def raceStoreFinal : List MatchRec :=
  saveMatch
    (saveMatch []
      (applyMatchAction ((findOneMatch [] "A" "B").getD (newMatch 1 "A" "B")) "A" "like"))
    (applyMatchAction ((findOneMatch [] "B" "A").getD (newMatch 2 "B" "A")) "B" "pass")

/-- C9: the find-then-create of the action route is not atomic: under the
schedule in which both concurrent submissions for one unordered pair run
findOne before either save, the store ends up with two records for the
pair, and they diverge (one pending, one rejected). -/
theorem c9_race_duplicate_records :
    raceStoreFinal =
      [{ mid := 1, user1 := "A", user2 := "B", user1Action := some "like",
         user2Action := none, status := "pending" },
       { mid := 2, user1 := "B", user2 := "A", user1Action := some "pass",
         user2Action := none, status := "rejected" }] ∧
    (raceStoreFinal.filter (fun m =>
      (m.user1 = "A" && m.user2 = "B") || (m.user1 = "B" && m.user2 = "A"))).length = 2 := by
  decide
